import Mathlib

/-!
Verification of the multigrid core (src/multigrid/core/grid.py and
src/multigrid/core/agent.py) against its specification.

Shallow embedding conventions:
* numpy integer arrays are modelled with `Int` values; array storage that can
  be aliased (grid cell records viewed by world-object handles) is modelled by
  an explicit heap: a handle is a numeral whose storage is either `attached`
  to a grid cell (a numpy view) or `owned` (a private copy).
* `AgentState` batches are a single backing store `data : Nat → Nat → Int`
  (record index, field slot); scalar record views obtained by indexing share
  that storage, per numpy basic-indexing semantics, so they are modelled as
  index-parameterised accessors reading and writing the batch store.
* fallible operations (the bounds assertions of `Grid.set` / `Grid.get`)
  return `Except GridErr`.

The files `world_object.py`, `constants.py`, `utils/misc.py` and
`utils/rendering.py` belong to the repository but are not available;
definitions taken from them are modelled from the spec and carry a doc
comment starting with "Modelled from the spec:".
-/

/-! ### Constants (constants.py) -/

/-- Modelled from the spec: object type indices from `constants.py` (missing
from the sources). The "unseen" index is distinct from "empty" (spec section 6),
and the agent type index is 10 (confirmed by the comment in `src/test2.py`). -/
def unseenIdx : Int := 0

/-- Modelled from the spec: the "empty" object type index. -/
def emptyIdx : Int := 1

/-- Modelled from the spec: the "wall" object type index. -/
def wallIdx : Int := 2

/-- Modelled from the spec: the "agent" object type index (10, per the
comment in `src/test2.py`). -/
def agentTypeIdx : Int := 10

/-- Modelled from the spec: the color enumeration has six entries
(red, green, blue, purple, yellow, grey), red = 0, green = 1
(confirmed by `src/test2.py`). -/
def numColors : Nat := 6

/-- Modelled from the spec: the red color index. -/
def redIdx : Int := 0

/-- Modelled from the spec: the grey color index (walls are grey). -/
def greyIdx : Int := 5

/-- Modelled from the spec: direction indices, right = 0, down = 1,
left = 2, up = 3. -/
def dirRight : Int := 0

/-- Modelled from the spec: the "down" direction index. -/
def dirDown : Int := 1

/-- Modelled from the spec: index-to-name lookup of the color enumeration
(`Color.from_index`). -/
def colorName (i : Int) : String :=
  if i = 0 then "red"
  else if i = 1 then "green"
  else if i = 2 then "blue"
  else if i = 3 then "purple"
  else if i = 4 then "yellow"
  else if i = 5 then "grey"
  else "invalid"

/-- Modelled from the spec: name-to-index lookup of the color enumeration
(`Color(c).to_index()`); an unknown name is an InvalidFieldValue failure,
modelled as `none`. -/
def colorToIndex (s : String) : Option Int :=
  if s = "red" then some 0
  else if s = "green" then some 1
  else if s = "blue" then some 2
  else if s = "purple" then some 3
  else if s = "yellow" then some 4
  else if s = "grey" then some 5
  else none

/-! ### AgentState (agent.py)

Field slots of one agent record (agent.py lines 26-31, with
`WorldObj.dim = 3`, so `AgentState.dim = 9`):
TYPE = 0, COLOR = 1, DIR = 2, POS = 3..4, TERMINATED = 5, CARRYING = 6..8. -/

/-- A batch of agent records over one shared backing buffer (`AgentState`,
agent.py lines 35-190).  `data i k` is field slot `k` of record `i`; the
side table `carried` mirrors `_carried_obj` (only presence of a carried
object is relevant to the claims, so entries are `Option Unit`). -/
structure AgentState where
  n : Nat
  data : Nat → Nat → Int
  carried : Nat → Option Unit

/-- `AgentState.__new__` (agent.py lines 90-104): zero initialisation, then
type := agent, color := flat index mod number of colors, dir := -1,
pos := (-1,-1), terminated := False; `_carried_obj` starts with no objects. -/
def AgentState.new (n : Nat) : AgentState where
  n := n
  data := fun i k =>
    if k = 0 then agentTypeIdx
    else if k = 1 then ((i % numColors : Nat) : Int)
    else if k = 2 then -1
    else if k = 3 then -1
    else if k = 4 then -1
    else 0
  carried := fun _ => none

/-- Scalar view read of the TYPE slot of record `k`. -/
def AgentState.typeAt (a : AgentState) (k : Nat) : Int := a.data k 0

/-- Scalar view read of the `color` property of record `k`
(agent.py lines 117-122): index mapped to its symbolic name. -/
def AgentState.colorAt (a : AgentState) (k : Nat) : String := colorName (a.data k 1)

/-- Scalar view read of the `dir` property of record `k` (agent.py lines 131-137). -/
def AgentState.dirAt (a : AgentState) (k : Nat) : Int := a.data k 2

/-- Batch read of the `dir` property: the sequence of DIR slots
(agent.py lines 131-137). -/
def AgentState.dirAll (a : AgentState) : Nat → Int := fun k => a.data k 2

/-- Scalar view read of the `pos` property of record `k` (agent.py lines 146-152). -/
def AgentState.posAt (a : AgentState) (k : Nat) : Int × Int := (a.data k 3, a.data k 4)

/-- Scalar view read of the `terminated` property of record `k`
(agent.py lines 161-167): the slot cast to bool. -/
def AgentState.terminatedAt (a : AgentState) (k : Nat) : Bool := a.data k 5 != 0

/-- Scalar view read of the `carrying` property of record `k`
(agent.py lines 176-182): the `_carried_obj` side table entry. -/
def AgentState.carryingAt (a : AgentState) (k : Nat) : Option Unit := a.carried k

/-- Batch write `batch.dir = d` (agent.py lines 139-144): broadcasts `d` over
the DIR slot of every record of the shared store. -/
def AgentState.setDirAll (a : AgentState) (d : Int) : AgentState :=
  { a with data := fun i k => if k = 2 then d else a.data i k }

/-- Scalar view write `batch[j].dir = d` (agent.py lines 110-115 and 139-144):
the view returned by indexing shares storage with the batch, so the write
lands in the batch store at record `j`. -/
def AgentState.setDirAt (a : AgentState) (j : Nat) (d : Int) : AgentState :=
  { a with data := fun i k => if i = j ∧ k = 2 then d else a.data i k }

/-- Scalar view write `batch[j].color = c` (agent.py lines 124-129): the name
is mapped to its index before storing; an unknown name fails (`none`). -/
def AgentState.setColorAt (a : AgentState) (j : Nat) (c : String) : Option AgentState :=
  (colorToIndex c).map fun ci =>
    { a with data := fun i k => if i = j ∧ k = 1 then ci else a.data i k }

/-! ### Grid (grid.py) -/

/-- One Cell Record of the grid state: `(type, color, aux)`
(`WorldObjState` rows; spec section 3, Cell Record with C = 3). -/
structure CellState where
  typeIdx : Int
  colorIdx : Int
  aux : Int
deriving DecidableEq

/-- Modelled from the spec: `WorldObjState.empty()` (world_object.py is
missing): a record with type = empty and color/aux zero. -/
def CellState.empty : CellState := ⟨emptyIdx, 0, 0⟩

/-- Modelled from the spec: the record of a freshly constructed `Wall()`
(world_object.py is missing): type = wall, color = grey. -/
def wallState : CellState := ⟨wallIdx, greyIdx, 0⟩

/-- The agent-side data `Grid.set` and `Agent.front_pos` read: color index,
direction, and position of the agent's scalar state record. -/
structure AgentData where
  colorIdx : Int
  dir : Int
  pos : Int × Int
deriving DecidableEq

/-- Modelled from the spec: `Agent.world_state()` (called by `Grid.set`,
grid.py line 121, but not defined in the available sources): the Cell Record
projection of agent state, `(type = agent, color, dir)`, matching the
3-tuple layout of `Agent.encode` (agent.py lines 310-323) and the expected
`encode()[3,3] == (agent_type_index, red_index, right_index)` of spec
section 8. -/
def AgentData.worldState (a : AgentData) : CellState :=
  ⟨agentTypeIdx, a.colorIdx, a.dir⟩

/-- Modelled from the spec: `front_pos` from `utils/misc.py` (missing):
`pos + unit_vector(dir)` with right (+1,0), down (0,+1), left (-1,0),
up (0,-1); undefined (`none`) for any other direction value. -/
def AgentData.frontPos (a : AgentData) : Option (Int × Int) :=
  if a.dir = 0 then some (a.pos.1 + 1, a.pos.2)
  else if a.dir = 1 then some (a.pos.1, a.pos.2 + 1)
  else if a.dir = 2 then some (a.pos.1 - 1, a.pos.2)
  else if a.dir = 3 then some (a.pos.1, a.pos.2 - 1)
  else none

/-- Storage of a world-object handle: `attached x y` means its record is a
numpy view into the grid state at `(x, y)`; `owned s` means it holds a
private copy `s`. -/
inductive ObjStorage
  | attached (x y : Nat)
  | owned (s : CellState)
deriving DecidableEq

/-- A value stored in `Grid.world_objects`: a world-object handle (by heap
id) or an `Agent` (grid.py line 110 stores the set value itself). -/
inductive CellVal
  | obj (hid : Nat)
  | agent (a : AgentData)
deriving DecidableEq

/-- The third argument of `Grid.set` (grid.py line 101):
a `WorldObj`, an `Agent`, or `None`. -/
inductive SetVal
  | noneV
  | obj (hid : Nat)
  | agent (a : AgentData)
deriving DecidableEq

/-- The value `Grid.set` stores into `world_objects` (grid.py line 110). -/
def SetVal.toCellVal : SetVal → Option CellVal
  | .noneV => none
  | .obj hid => some (.obj hid)
  | .agent a => some (.agent a)

/-- Failure of the bounds assertions of `Grid.set` / `Grid.get`
(spec section 7, OutOfBounds). -/
inductive GridErr
  | outOfBounds
deriving DecidableEq

/-- The grid (grid.py class `Grid`): cell records (`state`), the cached
handle table (`world_objects`, `none` = key absent, `some v` = key present
with value `v`), the heap of world-object handle storages, and a fresh-id
counter for handles materialised by `get` / `decode`. -/
structure Grid where
  width : Nat
  height : Nat
  cells : Nat → Nat → CellState
  worldObjects : Nat → Nat → Option (Option CellVal)
  heap : Nat → ObjStorage
  nextId : Nat

/-- `Grid.__init__` (grid.py lines 25-37): empty cell records everywhere, no
cached handles.  The constructor asserts `width ≥ 3` and `height ≥ 3`;
theorems about constructed grids carry that bound as a hypothesis. -/
def Grid.new (w h : Nat) : Grid where
  width := w
  height := h
  cells := fun _ _ => CellState.empty
  worldObjects := fun _ _ => none
  heap := fun _ => .owned CellState.empty
  nextId := 0

/-- Read a handle's record: through its view into grid storage when
attached, from its private copy when owned. -/
def Grid.readObj (g : Grid) (hid : Nat) : CellState :=
  match g.heap hid with
  | .attached x y => g.cells x y
  | .owned s => s

/-- Mutate a handle's record in place: an attached handle writes through its
view into grid storage, an owned handle updates its private copy. -/
def Grid.writeObj (g : Grid) (hid : Nat) (s : CellState) : Grid :=
  match g.heap hid with
  | .attached x y =>
      { g with cells := fun a b => if a = x ∧ b = y then s else g.cells a b }
  | .owned _ =>
      { g with heap := fun h2 => if h2 = hid then .owned s else g.heap h2 }

/-- `obj.encode()` of a world-object handle: its current record as a
`(type, color, aux)` triple. -/
def Grid.objEncode (g : Grid) (hid : Nat) : Int × Int × Int :=
  ((g.readObj hid).typeIdx, (g.readObj hid).colorIdx, (g.readObj hid).aux)

/-- Pointwise update of the grid's cell buffer at one coordinate. -/
def updateCells (f : Nat → Nat → CellState) (x y : Nat) (s : CellState) :
    Nat → Nat → CellState :=
  fun a b => if a = x ∧ b = y then s else f a b

/-- The detach step of `Grid.set` (grid.py lines 111-112): when the popped
previous value is a `WorldObj`, replace its storage by an owned copy of its
current record (`prev_obj.state = prev_obj.state.copy()`), so it no longer
references grid state. -/
def Grid.detach (g : Grid) (prev : Option CellVal) : Grid :=
  match prev with
  | some (.obj ph) =>
      { g with heap := fun h2 => if h2 = ph then .owned (g.readObj ph) else g.heap h2 }
  | _ => g

/-- The body of `Grid.set` after its bounds assertions (grid.py lines
108-123): pop the previous cached value, store the new value in
`world_objects`, detach a popped `WorldObj`, then update the cell record
(empty for `None`; the object's record copied in and the object re-attached
to the cell for a `WorldObj`; the agent's `world_state()` projection for an
`Agent`, without re-pointing the agent's own record). -/
def Grid.setCore (g : Grid) (x y : Nat) (v : SetVal) : Grid :=
  let prev := (g.worldObjects x y).join
  let g1 :=
    { g with worldObjects :=
        fun a b => if a = x ∧ b = y then some v.toCellVal else g.worldObjects a b }
  let g2 := g1.detach prev
  match v with
  | .noneV => { g2 with cells := updateCells g2.cells x y CellState.empty }
  | .obj hid =>
      let s := g2.readObj hid
      { g2 with
        cells := updateCells g2.cells x y s
        heap := fun h2 => if h2 = hid then .attached x y else g2.heap h2 }
  | .agent a => { g2 with cells := updateCells g2.cells x y a.worldState }

/-- `Grid.set` (grid.py lines 101-123): bounds assertions, then the body.
The assertions run before any state change, so a bounds failure leaves the
grid untouched. -/
def Grid.set (g : Grid) (i j : Int) (v : SetVal) : Except GridErr Grid :=
  if 0 ≤ i ∧ i < (g.width : Int) ∧ 0 ≤ j ∧ j < (g.height : Int) then
    .ok (g.setCore i.toNat j.toNat v)
  else
    .error .outOfBounds

/-- The grid after `Grid.set`, unchanged when the call failed its bounds
assertions (the Python assertion aborts before any mutation). -/
def Grid.setGrid (g : Grid) (i j : Int) (v : SetVal) : Grid :=
  (g.set i j v).toOption.getD g

/-- `Grid.get` (grid.py lines 126-135): bounds assertions; on a cache hit
return the stored value; on a miss, materialise `WorldObj.from_state` of the
cell record, cache it, and return it.  Modelled from the spec:
`WorldObj.from_state` (world_object.py is missing) returns `None` when the
cell's type is empty, and otherwise a fresh handle whose record is a view of
the grid storage it was created from. -/
def Grid.get (g : Grid) (i j : Nat) : Except GridErr (Option CellVal × Grid) :=
  if i < g.width ∧ j < g.height then
    match g.worldObjects i j with
    | some v => .ok (v, g)
    | none =>
        if (g.cells i j).typeIdx = emptyIdx then
          .ok (none,
            { g with worldObjects :=
                fun a b => if a = i ∧ b = j then some none else g.worldObjects a b })
        else
          .ok (some (.obj g.nextId),
            { g with
              worldObjects :=
                fun a b =>
                  if a = i ∧ b = j then some (some (.obj g.nextId))
                  else g.worldObjects a b
              heap := fun h2 => if h2 = g.nextId then .attached i j else g.heap h2
              nextId := g.nextId + 1 })
  else .error .outOfBounds

/-- The value returned by `Grid.get` (`none` when the call failed its
bounds assertions). -/
def Grid.getVal (g : Grid) (i j : Nat) : Option (Option CellVal) :=
  (g.get i j).toOption.map Prod.fst

/-- The grid after `Grid.get`, unchanged when the call failed. -/
def Grid.getGrid (g : Grid) (i j : Nat) : Grid :=
  ((g.get i j).toOption.map Prod.snd).getD g

/-- `Grid.horz_wall` (grid.py lines 137-146): bulk numpy write of wall
records along a horizontal run, clipped at the right array bound the way a
numpy slice clips; `none` length means the remainder to the grid edge. -/
def Grid.horzWall (g : Grid) (x y : Nat) (len : Option Nat) : Grid :=
  let l := len.getD (g.width - x)
  { g with cells :=
      fun a b => if x ≤ a ∧ a < x + l ∧ a < g.width ∧ b = y then wallState else g.cells a b }

/-- `Grid.vert_wall` (grid.py lines 148-157). -/
def Grid.vertWall (g : Grid) (x y : Nat) (len : Option Nat) : Grid :=
  let l := len.getD (g.height - y)
  { g with cells :=
      fun a b => if a = x ∧ y ≤ b ∧ b < y + l ∧ b < g.height then wallState else g.cells a b }

/-- `Grid.wall_rect` (grid.py lines 159-166): two horizontal and two
vertical walls, in source order. -/
def Grid.wallRect (g : Grid) (x y w h : Nat) : Grid :=
  (((g.horzWall x y (some w)).horzWall x (y + h - 1) (some w)).vertWall x y
      (some h)).vertWall (x + w - 1) y (some h)

/-- Modelled from the spec: `WorldObjState.encode` (world_object.py is
missing): the per-cell `(type, color, aux)` integer triple. -/
def Grid.stateEncode (g : Grid) : Nat → Nat → Int × Int × Int :=
  fun x y => ((g.cells x y).typeIdx, (g.cells x y).colorIdx, (g.cells x y).aux)

/-- `Grid.encode` (grid.py lines 252-261): the state encoding with every
cell whose visibility mask entry is false zeroed out. -/
def Grid.encode (g : Grid) (vis : Nat → Nat → Bool) : Nat → Nat → Int × Int × Int :=
  fun x y => if vis x y then g.stateEncode x y else (0, 0, 0)

/-- The default all-visible mask of `Grid.encode` (grid.py lines 256-257). -/
def allVisible : Nat → Nat → Bool := fun _ _ => true

/-- Modelled from the spec: `WorldObj.decode` (world_object.py is missing):
`None` for the empty and unseen type indices, otherwise a world object whose
record is the given triple. -/
def worldObjDecode (t c a : Int) : Option CellState :=
  if t = emptyIdx ∨ t = unseenIdx then none else some ⟨t, c, a⟩

/-- One iteration of the `Grid.decode` loop (grid.py lines 273-277): build
the decoded world object -- a fresh owned handle for a non-`None` decode --
and `set` it at `(i, j)`.  The coordinates come from the ranges of the
array's own shape, so the `set` cannot fail; the error arm is dead code. -/
def Grid.setDecoded (g : Grid) (i j : Nat) (os : Option CellState) : Grid :=
  match os with
  | none =>
      match g.set i j .noneV with
      | .ok g2 => g2
      | .error _ => g
  | some s =>
      let hid := g.nextId
      let g1 :=
        { g with
          nextId := hid + 1
          heap := fun h2 => if h2 = hid then .owned s else g.heap h2 }
      match g1.set i j (.obj hid) with
      | .ok g2 => g2
      | .error _ => g1

/-- The cell-decoding step of `Grid.decode` applied to the encoded array. -/
def Grid.decodeCell (arr : Nat → Nat → Int × Int × Int) (g : Grid) (i j : Nat) : Grid :=
  g.setDecoded i j (worldObjDecode (arr i j).1 (arr i j).2.1 (arr i j).2.2)

/-- `Grid.decode` (grid.py lines 263-280): a fresh grid of the array's
shape, filled cell by cell (i outer, j inner) by decoding each triple and
setting it, together with the derived visibility mask (true where the type
index differs from the unseen index). -/
def Grid.decode (w h : Nat) (arr : Nat → Nat → Int × Int × Int) :
    Grid × (Nat → Nat → Bool) :=
  ((List.range w).foldl
      (fun gA i => (List.range h).foldl (fun gB j => Grid.decodeCell arr gB i j) gA)
      (Grid.new w h),
    fun i j => decide ((arr i j).1 ≠ unseenIdx))

/-- `Grid.__eq__` (grid.py lines 88-89): `np.array_equal` of the two state
tensors -- equal shapes and element-wise equal Cell Records. -/
def Grid.eqState (g1 g2 : Grid) : Prop :=
  g1.width = g2.width ∧ g1.height = g2.height ∧
    ∀ x y, x < g1.width → y < g1.height → g1.cells x y = g2.cells x y

/-- A Cell Record built only from encodable object kinds: an empty cell is
exactly the canonical empty record, and the reserved unseen index does not
occur (spec sections 3 and 4.2). -/
def encodableCell (s : CellState) : Prop :=
  (s.typeIdx = emptyIdx → s = CellState.empty) ∧ s.typeIdx ≠ unseenIdx

/-- The record value the `Grid.decode` loop writes at `(i, j)`: the decoded
object's record, or the empty record for a `None` decode. -/
def decodeTarget (arr : Nat → Nat → Int × Int × Int) (i j : Nat) : CellState :=
  (worldObjDecode (arr i j).1 (arr i j).2.1 (arr i j).2.2).getD CellState.empty

/-- The ndarray arm of `Grid.__contains__` (grid.py lines 74-75): the
`np.may_share_memory` result (here the boolean argument, numpy being the
black box that computes it) is discarded -- the branch has no return, so
control falls through to the final `return False` (line 86). -/
def Grid.containsNdarray (g : Grid) (sharesMemory : Bool) : Bool :=
  let _discarded := sharesMemory
  false

/-! ### Tile renderer (grid.py lines 168-206)

The rasterization primitives (`utils/rendering.py`) are missing from the
sources; following spec section 6 they are modelled as: `fill_coords`
filling every pixel whose center, in unit coordinates, satisfies the region
predicate; `point_in_rect` as the closed-rectangle predicate; `downsample`
as the block area average (the spec names it an area-average downsample).
The `highlight` overlay and a world object's `render` are external black
boxes with no pixel contract in the spec, so both are parameters of the
renderer. -/

/-- A pixel buffer before downsampling: row, column, channel to a uint8
value. -/
abbrev PreBuf : Type := Nat → Nat → Nat → Nat

/-- A rendered tile after the area-averaging downsample (numpy mean gives a
float array; exact rational values here). -/
abbrev Buf : Type := Nat → Nat → Nat → ℚ

/-- Modelled from the spec: `fill_coords` over a square buffer of the given
size -- each in-range pixel whose center `((x+1/2)/size, (y+1/2)/size)`
satisfies the region predicate is set to the color. -/
def fillCoords (img : PreBuf) (size : Nat) (pred : ℚ → ℚ → Bool)
    (color : Nat × Nat × Nat) : PreBuf :=
  fun y x c =>
    if y < size ∧ x < size ∧ pred ((x + 1/2 : ℚ) / size) ((y + 1/2 : ℚ) / size) then
      (if c = 0 then color.1 else if c = 1 then color.2.1 else color.2.2)
    else img y x c

/-- Modelled from the spec: `point_in_rect` -- the closed rectangle region
predicate in unit coordinates. -/
def pointInRect (xmin xmax ymin ymax : ℚ) : ℚ → ℚ → Bool :=
  fun xf yf => decide (xmin ≤ xf ∧ xf ≤ xmax ∧ ymin ≤ yf ∧ yf ≤ ymax)

/-- The external `highlight` overlay collaborator (black box, spec
section 6): an in-place buffer transformation. -/
abbrev HlOverlay : Type := PreBuf → PreBuf

/-- Modelled from the spec: `downsample` with factor 3 (the renderer's
subdivision factor) -- the area average of each 3 by 3 block. -/
def downsample3 (img : PreBuf) : Buf :=
  fun y x c =>
    (∑ i ∈ Finset.range 3, ∑ j ∈ Finset.range 3,
      ((img (3 * y + i) (3 * x + j) c : Nat) : ℚ)) / 9

/-- The external `WorldObj.render` collaborator: given the object's
encoding and the buffer size, transform the pixel buffer (black box, spec
section 6). -/
abbrev ObjDraw : Type := (Int × Int × Int) → Nat → PreBuf → PreBuf

/-- The rendering pipeline of `Grid.render_tile` without the cache
(grid.py lines 185-201): a zeroed buffer at 3-fold resolution, the two grey
grid border lines (left edge, then top edge), the object if present, the
highlight overlay if requested, then the downsample.  The object renderer
and the highlight overlay are the external black-box collaborators. -/
def renderTilePure (draw : ObjDraw) (hlFn : HlOverlay) (enc : Option (Int × Int × Int))
    (highlight : Bool) (tileSize : Nat) : Buf :=
  let size := tileSize * 3
  let img0 : PreBuf := fun _ _ _ => 0
  let img1 := fillCoords img0 size (pointInRect 0 (31/1000) 0 1) (100, 100, 100)
  let img2 := fillCoords img1 size (pointInRect 0 1 0 (31/1000)) (100, 100, 100)
  let img3 := match enc with
    | none => img2
    | some e => draw e size img2
  let img4 := if highlight then hlFn img3 else img3
  downsample3 img4

/-- A tile cache key (grid.py lines 178-180): the object's encoding (or
nothing), the highlight flag, and the tile size. -/
abbrev TileKey : Type := Option (Int × Int × Int) × Bool × Nat

/-- The process-wide `Grid.tile_cache` (grid.py line 23). -/
abbrev TileCache : Type := List (TileKey × Buf)

/-- Key lookup in the tile cache. -/
def cacheLookup (key : TileKey) : TileCache → Option Buf
  | [] => none
  | (k, b) :: rest => if k = key then some b else cacheLookup key rest

/-- `Grid.render_tile` (grid.py lines 168-206): return the cached buffer on
a key hit, otherwise render, cache, and return. -/
def renderTile (draw : ObjDraw) (hlFn : HlOverlay) (cache : TileCache)
    (enc : Option (Int × Int × Int)) (highlight : Bool) (tileSize : Nat) :
    Buf × TileCache :=
  let key : TileKey := (enc, highlight, tileSize)
  match cacheLookup key cache with
  | some b => (b, cache)
  | none =>
      let b := renderTilePure draw hlFn enc highlight tileSize
      (b, (key, b) :: cache)

/-- Cache well-formedness: every cached buffer is the pure render of its key
(spec section 4.3 treats cached buffers as immutable once produced). -/
def wfCache (draw : ObjDraw) (hlFn : HlOverlay) (c : TileCache) : Prop :=
  ∀ enc hl ts b, ((enc, hl, ts), b) ∈ c → b = renderTilePure draw hlFn enc hl ts

/-! ### Concrete scenario data -/

/-- The agent of the spec section 8 scenario: color red, direction right,
placed at position (3, 3). -/
def scenarioAgent : AgentData := ⟨redIdx, dirRight, (3, 3)⟩

/-- The scenario grid: `Grid(8,8)`, `wall_rect(0,0,8,8)`, then
`set(3, 3, agent)`. -/
def scenarioGrid : Grid :=
  (((Grid.new 8 8).wallRect 0 0 8 8).setGrid 3 3 (.agent scenarioAgent))

/-- A 3 by 3 grid whose cell (0, 0) holds a wall record (built the way
`Grid.from_grid_state` admits an arbitrary state tensor). -/
def wallGrid : Grid :=
  { Grid.new 3 3 with cells := updateCells (Grid.new 3 3).cells 0 0 wallState }

/-- `wallGrid` after a first `get(0, 0)`, which materialises and caches
handle 0 for the wall cell. -/
def wallGridCached : Grid := wallGrid.getGrid 0 0

/-- A 3 by 3 grid with one detached wall handle (id 7) not yet placed. -/
def staleGrid0 : Grid :=
  { Grid.new 3 3 with
    heap := fun h2 => if h2 = 7 then .owned wallState else .owned CellState.empty }

/-- `staleGrid0` after `set(0, 0, obj)` with the handle 7 object. -/
def staleGrid1 : Grid := staleGrid0.setGrid 0 0 (.obj 7)

/-- `staleGrid1` after `set(1, 1, obj)` with the same handle 7 object: the
handle is still cached at (0, 0) but its record now views (1, 1). -/
def staleGrid2 : Grid := staleGrid1.setGrid 1 1 (.obj 7)

/-- `staleGrid2` after `set(1, 1, None)`: the handle is popped from (1, 1)
and detached into an owned copy, yet it remains cached at (0, 0), where it
now aliases no grid cell at all. -/
def staleGrid3 : Grid := staleGrid2.setGrid 1 1 .noneV

/-- A fresh grid holding an agent at (1, 1): `Grid(3,3)` then
`set(1, 1, agent)`. -/
def agentSetGrid : Grid :=
  (Grid.new 3 3).setGrid 1 1 (.agent scenarioAgent)

/-! ### Helper lemmas -/

theorem updateCells_apply (f : Nat → Nat → CellState) (x y : Nat) (s : CellState)
    (a b : Nat) : updateCells f x y s a b = if a = x ∧ b = y then s else f a b := rfl

theorem Grid.detach_width (g : Grid) (p : Option CellVal) : (g.detach p).width = g.width := by
  cases p with
  | none => rfl
  | some cv => cases cv <;> rfl

theorem Grid.detach_height (g : Grid) (p : Option CellVal) :
    (g.detach p).height = g.height := by
  cases p with
  | none => rfl
  | some cv => cases cv <;> rfl

theorem Grid.detach_cells (g : Grid) (p : Option CellVal) : (g.detach p).cells = g.cells := by
  cases p with
  | none => rfl
  | some cv => cases cv <;> rfl

theorem Grid.detach_worldObjects (g : Grid) (p : Option CellVal) :
    (g.detach p).worldObjects = g.worldObjects := by
  cases p with
  | none => rfl
  | some cv => cases cv <;> rfl

theorem Grid.detach_readObj (g : Grid) (p : Option CellVal) (hid : Nat) :
    (g.detach p).readObj hid = g.readObj hid := by
  cases p with
  | none => rfl
  | some cv =>
    cases cv with
    | agent a => rfl
    | obj ph =>
      by_cases hp : hid = ph
      · subst hp
        simp [Grid.detach, Grid.readObj]
      · simp only [Grid.detach, Grid.readObj]
        simp [hp]

theorem Grid.readObj_writeObj (g : Grid) (hid : Nat) (s : CellState) :
    (g.writeObj hid s).readObj hid = s := by
  unfold Grid.writeObj Grid.readObj
  cases hh : g.heap hid with
  | attached x y => simp [hh]
  | owned s0 => simp [hh]

theorem Grid.writeObj_worldObjects (g : Grid) (hid : Nat) (s : CellState) :
    (g.writeObj hid s).worldObjects = g.worldObjects := by
  unfold Grid.writeObj
  cases g.heap hid <;> rfl

theorem Grid.writeObj_width (g : Grid) (hid : Nat) (s : CellState) :
    (g.writeObj hid s).width = g.width := by
  unfold Grid.writeObj
  cases g.heap hid <;> rfl

theorem Grid.writeObj_height (g : Grid) (hid : Nat) (s : CellState) :
    (g.writeObj hid s).height = g.height := by
  unfold Grid.writeObj
  cases g.heap hid <;> rfl

theorem Grid.setCore_width (g : Grid) (x y : Nat) (v : SetVal) :
    (g.setCore x y v).width = g.width := by
  cases v <;> simp [Grid.setCore, Grid.detach_width]

theorem Grid.setCore_height (g : Grid) (x y : Nat) (v : SetVal) :
    (g.setCore x y v).height = g.height := by
  cases v <;> simp [Grid.setCore, Grid.detach_height]

theorem Grid.setCore_worldObjects (g : Grid) (x y : Nat) (v : SetVal) (a b : Nat) :
    (g.setCore x y v).worldObjects a b =
      if a = x ∧ b = y then some v.toCellVal else g.worldObjects a b := by
  cases v <;> simp [Grid.setCore, Grid.detach_worldObjects]

theorem Grid.setCore_cells_noneV (g : Grid) (x y a b : Nat) :
    (g.setCore x y .noneV).cells a b = updateCells g.cells x y CellState.empty a b := by
  simp [Grid.setCore, Grid.detach_cells]

theorem Grid.setCore_cells_agent (g : Grid) (x y : Nat) (ag : AgentData) (a b : Nat) :
    (g.setCore x y (.agent ag)).cells a b = updateCells g.cells x y ag.worldState a b := by
  simp [Grid.setCore, Grid.detach_cells]

theorem Grid.setCore_cells_obj (g : Grid) (x y hid : Nat) (a b : Nat) :
    (g.setCore x y (.obj hid)).cells a b = updateCells g.cells x y (g.readObj hid) a b := by
  simp only [Grid.setCore, Grid.detach_cells, Grid.detach_readObj]
  rfl

theorem Grid.setCore_heap_obj (g : Grid) (x y hid : Nat) :
    (g.setCore x y (.obj hid)).heap hid = .attached x y := by
  simp [Grid.setCore]

theorem Grid.set_inBounds (g : Grid) (x y : Nat) (hx : x < g.width) (hy : y < g.height)
    (v : SetVal) : g.set ↑x ↑y v = .ok (g.setCore x y v) := by
  have h1 : (0 : Int) ≤ ↑x := Int.natCast_nonneg x
  have h2 : (↑x : Int) < ↑g.width := by exact_mod_cast hx
  have h3 : (0 : Int) ≤ ↑y := Int.natCast_nonneg y
  have h4 : (↑y : Int) < ↑g.height := by exact_mod_cast hy
  simp [Grid.set, h1, h2, h3, h4]

theorem Grid.setGrid_inBounds (g : Grid) (x y : Nat) (hx : x < g.width)
    (hy : y < g.height) (v : SetVal) : g.setGrid ↑x ↑y v = g.setCore x y v := by
  simp [Grid.setGrid, Grid.set_inBounds g x y hx hy v, Except.toOption]

theorem Grid.get_cached (g : Grid) (x y : Nat) (hx : x < g.width) (hy : y < g.height)
    (v : Option CellVal) (hwo : g.worldObjects x y = some v) : g.get x y = .ok (v, g) := by
  simp [Grid.get, hx, hy, hwo]

theorem Grid.getVal_cached (g : Grid) (x y : Nat) (hx : x < g.width) (hy : y < g.height)
    (v : Option CellVal) (hwo : g.worldObjects x y = some v) : g.getVal x y = some v := by
  simp [Grid.getVal, Grid.get_cached g x y hx hy v hwo, Except.toOption]

theorem Grid.getGrid_cached (g : Grid) (x y : Nat) (hx : x < g.width) (hy : y < g.height)
    (v : Option CellVal) (hwo : g.worldObjects x y = some v) : g.getGrid x y = g := by
  simp [Grid.getGrid, Grid.get_cached g x y hx hy v hwo, Except.toOption]

/-! ### Claim theorems -/

/-- C2: for every in-bounds coordinate (x,y) and every WorldObj handle,
`Grid.get(x,y)` after `Grid.set(x,y,obj)` returns a handle (the object
itself, found in the cached-handle table) whose `encode()` equals the
`encode()` of `obj` before the call. -/
theorem Grid.get_after_set_encode_eq (g : Grid) (x y hid : Nat)
    (hx : x < g.width) (hy : y < g.height) :
    (g.setGrid ↑x ↑y (.obj hid)).getVal x y = some (some (.obj hid))
    ∧ Grid.objEncode ((g.setGrid ↑x ↑y (.obj hid)).getGrid x y) hid
        = Grid.objEncode g hid := by
  rw [Grid.setGrid_inBounds g x y hx hy]
  have hxw : x < (g.setCore x y (.obj hid)).width := by
    rw [Grid.setCore_width]
    exact hx
  have hyw : y < (g.setCore x y (.obj hid)).height := by
    rw [Grid.setCore_height]
    exact hy
  have hwo : (g.setCore x y (.obj hid)).worldObjects x y = some (some (.obj hid)) := by
    rw [Grid.setCore_worldObjects]
    simp [SetVal.toCellVal]
  have hro : (g.setCore x y (.obj hid)).readObj hid = g.readObj hid := by
    have hheap := Grid.setCore_heap_obj g x y hid
    simp only [Grid.readObj, hheap]
    rw [Grid.setCore_cells_obj]
    simp [updateCells, Grid.readObj]
  refine ⟨Grid.getVal_cached _ x y hxw hyw _ hwo, ?_⟩
  rw [Grid.getGrid_cached _ x y hxw hyw _ hwo]
  simp [Grid.objEncode, hro]

/-- C2 witness: the theorem at a fresh 3 by 3 grid, coordinate (0,0),
handle 0. -/
theorem Grid.get_after_set_encode_eq_witness :
    ((Grid.new 3 3).setGrid 0 0 (.obj 0)).getVal 0 0 = some (some (.obj 0))
    ∧ Grid.objEncode (((Grid.new 3 3).setGrid 0 0 (.obj 0)).getGrid 0 0) 0
        = Grid.objEncode (Grid.new 3 3) 0 := by
  exact Grid.get_after_set_encode_eq (Grid.new 3 3) 0 0 0 (by decide) (by decide)

/-- C4: for an AgentState batch, after the batch-level write of `dir` every
scalar view reads the written value, and after a scalar view write of `dir`
at index k the batch read has the new value at k and all other entries
unchanged (the scalar views share the batch storage). -/
theorem AgentState.batch_scalar_dir_consistency (a : AgentState) (d d2 : Int)
    (k : Nat) (hk : k < a.n) :
    (∀ j, j < a.n → (a.setDirAll d).dirAt j = d)
    ∧ (a.setDirAt k d2).dirAll k = d2
    ∧ (∀ j, j < a.n → j ≠ k → (a.setDirAt k d2).dirAll j = a.dirAll j) := by
  refine ⟨fun j hj => rfl, ?_, fun j hj hjk => ?_⟩
  · simp [AgentState.setDirAt, AgentState.dirAll]
  · simp [AgentState.setDirAt, AgentState.dirAll, hjk]

/-- C4 witness: the theorem at a fresh batch of 3 records, writing 2 to the
whole batch and 0 to index 1. -/
theorem AgentState.batch_scalar_dir_consistency_witness :
    (∀ j, j < (AgentState.new 3).n → ((AgentState.new 3).setDirAll 2).dirAt j = 2)
    ∧ ((AgentState.new 3).setDirAt 1 0).dirAll 1 = 0
    ∧ (∀ j, j < (AgentState.new 3).n → j ≠ 1 →
        ((AgentState.new 3).setDirAt 1 0).dirAll j = (AgentState.new 3).dirAll j) := by
  exact AgentState.batch_scalar_dir_consistency (AgentState.new 3) 2 0 1 (by decide)

/-- C7: a freshly constructed AgentState batch defaults every record to
dir = -1, pos = (-1,-1), terminated = false, carrying empty, type = agent,
and color = the enumeration entry at flat index mod the number of colors;
for `AgentState(3)` the three dirs are -1 and the default colors are the
distinct red, green, blue, and after setting index 1 to yellow the batch
colors read red, yellow, blue. -/
theorem AgentState.defaults_and_scenario (n i : Nat) (hi : i < n) :
    ((AgentState.new n).dirAt i = -1
      ∧ (AgentState.new n).posAt i = (-1, -1)
      ∧ (AgentState.new n).terminatedAt i = false
      ∧ (AgentState.new n).carryingAt i = none
      ∧ (AgentState.new n).typeAt i = agentTypeIdx
      ∧ (AgentState.new n).colorAt i = colorName ((i % numColors : Nat) : Int))
    ∧ (∀ j, j < 3 → (AgentState.new 3).dirAt j = -1)
    ∧ ((AgentState.new 3).colorAt 0 = "red" ∧ (AgentState.new 3).colorAt 1 = "green"
        ∧ (AgentState.new 3).colorAt 2 = "blue"
        ∧ (AgentState.new 3).colorAt 0 ≠ (AgentState.new 3).colorAt 1
        ∧ (AgentState.new 3).colorAt 0 ≠ (AgentState.new 3).colorAt 2
        ∧ (AgentState.new 3).colorAt 1 ≠ (AgentState.new 3).colorAt 2)
    ∧ (((AgentState.new 3).setColorAt 1 "yellow").isSome = true
        ∧ (((AgentState.new 3).setColorAt 1 "yellow").getD (AgentState.new 3)).colorAt 0 = "red"
        ∧ (((AgentState.new 3).setColorAt 1 "yellow").getD (AgentState.new 3)).colorAt 1 = "yellow"
        ∧ (((AgentState.new 3).setColorAt 1 "yellow").getD (AgentState.new 3)).colorAt 2 = "blue") := by
  refine ⟨⟨rfl, rfl, rfl, rfl, rfl, rfl⟩, ?_, ?_, ?_⟩
  · intro j hj
    rfl
  · exact ⟨by decide, by decide, by decide, by decide, by decide, by decide⟩
  · exact ⟨by decide, by decide, by decide, by decide⟩

/-- C7 witness: the theorem at batch size 3, record index 1. -/
theorem AgentState.defaults_and_scenario_witness :
    ((AgentState.new 3).dirAt 1 = -1
      ∧ (AgentState.new 3).posAt 1 = (-1, -1)
      ∧ (AgentState.new 3).terminatedAt 1 = false
      ∧ (AgentState.new 3).carryingAt 1 = none
      ∧ (AgentState.new 3).typeAt 1 = agentTypeIdx
      ∧ (AgentState.new 3).colorAt 1 = colorName ((1 % numColors : Nat) : Int))
    ∧ (∀ j, j < 3 → (AgentState.new 3).dirAt j = -1)
    ∧ ((AgentState.new 3).colorAt 0 = "red" ∧ (AgentState.new 3).colorAt 1 = "green"
        ∧ (AgentState.new 3).colorAt 2 = "blue"
        ∧ (AgentState.new 3).colorAt 0 ≠ (AgentState.new 3).colorAt 1
        ∧ (AgentState.new 3).colorAt 0 ≠ (AgentState.new 3).colorAt 2
        ∧ (AgentState.new 3).colorAt 1 ≠ (AgentState.new 3).colorAt 2)
    ∧ (((AgentState.new 3).setColorAt 1 "yellow").isSome = true
        ∧ (((AgentState.new 3).setColorAt 1 "yellow").getD (AgentState.new 3)).colorAt 0 = "red"
        ∧ (((AgentState.new 3).setColorAt 1 "yellow").getD (AgentState.new 3)).colorAt 1 = "yellow"
        ∧ (((AgentState.new 3).setColorAt 1 "yellow").getD (AgentState.new 3)).colorAt 2 = "blue") := by
  exact AgentState.defaults_and_scenario 3 1 (by decide)

/-- C8: for every grid and every value, `Grid.set(-1, 0, v)` and
`Grid.set(width, 0, v)` both fail the bounds assertion with OutOfBounds,
and the grid after either call is exactly the grid before it (the
assertions run before any mutation). -/
theorem Grid.set_out_of_bounds (g : Grid) (v : SetVal) :
    g.set (-1) 0 v = .error .outOfBounds
    ∧ g.setGrid (-1) 0 v = g
    ∧ g.set ↑g.width 0 v = .error .outOfBounds
    ∧ g.setGrid ↑g.width 0 v = g := by
  have hneg : ¬ ((0 : Int) ≤ -1) := by decide
  have hw : ¬ ((↑g.width : Int) < ↑g.width) := lt_irrefl _
  refine ⟨?_, ?_, ?_, ?_⟩ <;>
    simp [Grid.set, Grid.setGrid, hneg, hw, Except.toOption]

/-- C10: for every ndarray key, `Grid.__contains__` returns False: the
`np.may_share_memory` result is discarded and the method falls through to
the final return False, whatever the memory-sharing check would say. -/
theorem Grid.contains_ndarray_false (g : Grid) (sharesMemory : Bool) :
    g.containsNdarray sharesMemory = false := rfl

/-- C3 counterexample: a handle present in the object cache for (x,y) need
not alias the grid's storage at (x,y).  Setting the same WorldObj at (0,0)
and then at (1,1) leaves its handle cached at (0,0) while its record is a
view of (1,1): a mutation through the handle leaves the grid state at (0,0)
untouched (it lands at (1,1)).  A further `set(1,1,None)` detaches the
handle into an owned copy while it is still cached at (0,0), after which a
mutation through it changes no grid cell at all. -/
theorem Grid.cached_alias_counterexample :
    (staleGrid2.worldObjects 0 0 = some (some (.obj 7))
      ∧ (staleGrid2.writeObj 7 ⟨wallIdx, redIdx, 1⟩).cells 0 0 = staleGrid2.cells 0 0
      ∧ staleGrid2.cells 0 0 ≠ (⟨wallIdx, redIdx, 1⟩ : CellState)
      ∧ (staleGrid2.writeObj 7 ⟨wallIdx, redIdx, 1⟩).cells 1 1
          = (⟨wallIdx, redIdx, 1⟩ : CellState))
    ∧ (staleGrid3.worldObjects 0 0 = some (some (.obj 7))
      ∧ staleGrid3.heap 7 = .owned wallState
      ∧ (staleGrid3.writeObj 7 ⟨wallIdx, redIdx, 1⟩).cells 0 0 = staleGrid3.cells 0 0
      ∧ (staleGrid3.writeObj 7 ⟨wallIdx, redIdx, 1⟩).cells 1 1 = staleGrid3.cells 1 1) := by
  refine ⟨⟨by decide, by decide, by decide, by decide⟩,
    by decide, by decide, by decide, by decide⟩

/-- C3 amended: the blanket invariant that a handle cached at (x,y)
aliases the grid's storage at (x,y) does not hold (see the counterexample:
the handle's record may view another cell, or no cell at all).  The
operational parts of the claim hold for every cached handle: mutating a
handle returned by `Grid.get(x,y)` changes what a subsequent
`Grid.get(x,y)` returns (the same handle, now reading the written record),
and after `Grid.set(x,y,None)` the previously cached handle is detached
into an owned copy of its record, so mutating it no longer changes the
grid's state at (x,y). -/
theorem Grid.aliasing_amended (g : Grid) (x y hid ph : Nat) (s2 s3 : CellState)
    (hx : x < g.width) (hy : y < g.height) :
    (g.getVal x y = some (some (.obj hid)) →
      ((g.getGrid x y).writeObj hid s2).getVal x y = some (some (.obj hid))
      ∧ ((g.getGrid x y).writeObj hid s2).readObj hid = s2)
    ∧ (g.worldObjects x y = some (some (.obj ph)) →
      (g.setGrid ↑x ↑y .noneV).heap ph = .owned (g.readObj ph)
      ∧ ((g.setGrid ↑x ↑y .noneV).writeObj ph s3).cells x y
          = (g.setGrid ↑x ↑y .noneV).cells x y) := by
  constructor
  · intro hval
    cases hwo : g.worldObjects x y with
    | some v =>
      have hget : g.getVal x y = some v := Grid.getVal_cached g x y hx hy v hwo
      rw [hget] at hval
      have hv : v = some (.obj hid) := by
        exact Option.some_injective _ hval
      subst hv
      have hgg : g.getGrid x y = g := Grid.getGrid_cached g x y hx hy _ hwo
      rw [hgg]
      have hxw : x < (g.writeObj hid s2).width := by
        rw [Grid.writeObj_width]
        exact hx
      have hyw : y < (g.writeObj hid s2).height := by
        rw [Grid.writeObj_height]
        exact hy
      have hwo2 : (g.writeObj hid s2).worldObjects x y = some (some (.obj hid)) := by
        rw [Grid.writeObj_worldObjects]
        exact hwo
      exact ⟨Grid.getVal_cached _ x y hxw hyw _ hwo2, Grid.readObj_writeObj g hid s2⟩
    | none =>
      by_cases hemp : (g.cells x y).typeIdx = emptyIdx
      · simp [Grid.getVal, Grid.get, hx, hy, hwo, hemp, Except.toOption] at hval
      · simp only [Grid.getVal, Grid.get, hx, hy, and_self, if_true, hwo, hemp,
          if_false, ite_false, Except.toOption, Option.map] at hval
        have hid_eq : g.nextId = hid := by
          simpa using hval
        subst hid_eq
        have hgg : g.getGrid x y =
            { g with
              worldObjects :=
                fun a b =>
                  if a = x ∧ b = y then some (some (.obj g.nextId))
                  else g.worldObjects a b
              heap := fun h2 => if h2 = g.nextId then .attached x y else g.heap h2
              nextId := g.nextId + 1 } := by
          simp [Grid.getGrid, Grid.get, hx, hy, hwo, hemp, Except.toOption]
        rw [hgg]
        set gm : Grid :=
          { g with
            worldObjects :=
              fun a b =>
                if a = x ∧ b = y then some (some (.obj g.nextId))
                else g.worldObjects a b
            heap := fun h2 => if h2 = g.nextId then .attached x y else g.heap h2
            nextId := g.nextId + 1 } with hgm
        have hxw : x < (gm.writeObj g.nextId s2).width := by
          rw [Grid.writeObj_width]
          exact hx
        have hyw : y < (gm.writeObj g.nextId s2).height := by
          rw [Grid.writeObj_height]
          exact hy
        have hwo2 : (gm.writeObj g.nextId s2).worldObjects x y
            = some (some (.obj g.nextId)) := by
          rw [Grid.writeObj_worldObjects]
          simp [hgm]
        exact ⟨Grid.getVal_cached _ x y hxw hyw _ hwo2,
          Grid.readObj_writeObj gm g.nextId s2⟩
  · intro hwo
    rw [Grid.setGrid_inBounds g x y hx hy]
    have hheap : (g.setCore x y .noneV).heap ph = .owned (g.readObj ph) := by
      simp only [Grid.setCore, hwo, Option.join, Grid.detach]
      simp [Grid.readObj]
    refine ⟨hheap, ?_⟩
    have hcw : ((g.setCore x y .noneV).writeObj ph s3).cells
        = (g.setCore x y .noneV).cells := by
      unfold Grid.writeObj
      rw [hheap]
    rw [hcw]

/-- C3 amended witness: the theorem at a 3 by 3 grid holding a wall at
(0,0), after a first get has cached handle 0 there. -/
theorem Grid.aliasing_amended_witness :
    (wallGridCached.getVal 0 0 = some (some (.obj 0)) →
      ((wallGridCached.getGrid 0 0).writeObj 0 ⟨wallIdx, redIdx, 1⟩).getVal 0 0
          = some (some (.obj 0))
      ∧ ((wallGridCached.getGrid 0 0).writeObj 0 ⟨wallIdx, redIdx, 1⟩).readObj 0
          = ⟨wallIdx, redIdx, 1⟩)
    ∧ (wallGridCached.worldObjects 0 0 = some (some (.obj 0)) →
      (wallGridCached.setGrid 0 0 .noneV).heap 0
          = .owned (wallGridCached.readObj 0)
      ∧ ((wallGridCached.setGrid 0 0 .noneV).writeObj 0 wallState).cells 0 0
          = (wallGridCached.setGrid 0 0 .noneV).cells 0 0) := by
  exact Grid.aliasing_amended wallGridCached 0 0 0 0 ⟨wallIdx, redIdx, 1⟩ wallState
    (by decide) (by decide)

/-- C5 counterexample: `Grid.set(1, 1, agent)` on a fresh 3 by 3 grid does
insert an entry for (1,1) into the cached-handle table (the Agent value
itself), and the subsequent `Grid.get(1, 1)` returns that original Agent,
not a decoded placeholder object. -/
theorem Grid.set_agent_caches_counterexample :
    agentSetGrid.worldObjects 1 1 ≠ none
    ∧ agentSetGrid.worldObjects 1 1 = some (some (.agent scenarioAgent))
    ∧ agentSetGrid.getVal 1 1 = some (some (.agent scenarioAgent)) := by
  refine ⟨by decide, by decide, by decide⟩

/-- C5 amended: `Grid.set(x, y, v)` stores the value `v` itself in the
cached-handle table for every kind of value (grid.py line 110).  For an
Agent, the numeric cell becomes the agent's world-state projection and a
subsequent get returns the original Agent (not a decoded placeholder); for
None, the table maps (x,y) to None and a subsequent get returns None. -/
theorem Grid.set_agent_amended (g : Grid) (x y : Nat) (a : AgentData)
    (hx : x < g.width) (hy : y < g.height) :
    (g.setGrid ↑x ↑y (.agent a)).worldObjects x y = some (some (.agent a))
    ∧ (g.setGrid ↑x ↑y (.agent a)).cells x y = a.worldState
    ∧ (g.setGrid ↑x ↑y (.agent a)).getVal x y = some (some (.agent a))
    ∧ (g.setGrid ↑x ↑y .noneV).worldObjects x y = some none
    ∧ (g.setGrid ↑x ↑y .noneV).getVal x y = some none := by
  rw [Grid.setGrid_inBounds g x y hx hy, Grid.setGrid_inBounds g x y hx hy]
  have hwoA : (g.setCore x y (.agent a)).worldObjects x y = some (some (.agent a)) := by
    rw [Grid.setCore_worldObjects]
    simp [SetVal.toCellVal]
  have hwoN : (g.setCore x y .noneV).worldObjects x y = some none := by
    rw [Grid.setCore_worldObjects]
    simp [SetVal.toCellVal]
  refine ⟨hwoA, ?_, ?_, hwoN, ?_⟩
  · rw [Grid.setCore_cells_agent]
    simp [updateCells]
  · refine Grid.getVal_cached _ x y ?_ ?_ _ hwoA
    · rw [Grid.setCore_width]
      exact hx
    · rw [Grid.setCore_height]
      exact hy
  · refine Grid.getVal_cached _ x y ?_ ?_ _ hwoN
    · rw [Grid.setCore_width]
      exact hx
    · rw [Grid.setCore_height]
      exact hy

/-- C5 amended witness: the theorem at a fresh 3 by 3 grid, coordinate
(1,1), the scenario agent. -/
theorem Grid.set_agent_amended_witness :
    ((Grid.new 3 3).setGrid 1 1 (.agent scenarioAgent)).worldObjects 1 1
        = some (some (.agent scenarioAgent))
    ∧ ((Grid.new 3 3).setGrid 1 1 (.agent scenarioAgent)).cells 1 1
        = scenarioAgent.worldState
    ∧ ((Grid.new 3 3).setGrid 1 1 (.agent scenarioAgent)).getVal 1 1
        = some (some (.agent scenarioAgent))
    ∧ ((Grid.new 3 3).setGrid 1 1 .noneV).worldObjects 1 1 = some none
    ∧ ((Grid.new 3 3).setGrid 1 1 .noneV).getVal 1 1 = some none := by
  exact Grid.set_agent_amended (Grid.new 3 3) 1 1 scenarioAgent (by decide) (by decide)

/-- C6: in the scenario Grid(8,8); wall_rect(0,0,8,8); set(3,3, agent with
color red, dir right, placed at (3,3)), the grid encoding at cell (3,3) is
(agent type index, red index, right index) and the value obtained by
get(3,3) is the original agent, whose front cell position is (4,3). -/
theorem Grid.scenario_encode_and_front :
    scenarioGrid.encode allVisible 3 3 = (agentTypeIdx, redIdx, dirRight)
    ∧ scenarioGrid.getVal 3 3 = some (some (.agent scenarioAgent))
    ∧ scenarioAgent.frontPos = some (4, 3) := by
  refine ⟨by decide, by decide, by decide⟩

theorem Grid.setDecoded_none_eq (g : Grid) (i j : Nat) (hi : i < g.width)
    (hj : j < g.height) : g.setDecoded i j none = g.setCore i j .noneV := by
  simp [Grid.setDecoded, Grid.set_inBounds g i j hi hj]

theorem Grid.setDecoded_some_eq (g : Grid) (i j : Nat) (hi : i < g.width)
    (hj : j < g.height) (s : CellState) :
    g.setDecoded i j (some s)
      = ({ g with
            nextId := g.nextId + 1
            heap := fun h2 => if h2 = g.nextId then .owned s else g.heap h2 } : Grid).setCore
          i j (.obj g.nextId) := by
  simp only [Grid.setDecoded]
  rw [Grid.set_inBounds
    { g with
      nextId := g.nextId + 1
      heap := fun h2 => if h2 = g.nextId then .owned s else g.heap h2 } i j hi hj]

theorem Grid.setDecoded_cells (g : Grid) (i j : Nat) (hi : i < g.width)
    (hj : j < g.height) (os : Option CellState) (a b : Nat) :
    (g.setDecoded i j os).cells a b
      = if a = i ∧ b = j then os.getD CellState.empty else g.cells a b := by
  cases os with
  | none =>
    rw [Grid.setDecoded_none_eq g i j hi hj, Grid.setCore_cells_noneV]
    rfl
  | some s =>
    rw [Grid.setDecoded_some_eq g i j hi hj s, Grid.setCore_cells_obj]
    simp only [updateCells, Grid.readObj]
    simp

theorem Grid.setDecoded_width (g : Grid) (i j : Nat) (hi : i < g.width)
    (hj : j < g.height) (os : Option CellState) :
    (g.setDecoded i j os).width = g.width := by
  cases os with
  | none =>
    rw [Grid.setDecoded_none_eq g i j hi hj]
    exact Grid.setCore_width g i j .noneV
  | some s =>
    rw [Grid.setDecoded_some_eq g i j hi hj s]
    rw [Grid.setCore_width]

theorem Grid.setDecoded_height (g : Grid) (i j : Nat) (hi : i < g.width)
    (hj : j < g.height) (os : Option CellState) :
    (g.setDecoded i j os).height = g.height := by
  cases os with
  | none =>
    rw [Grid.setDecoded_none_eq g i j hi hj]
    exact Grid.setCore_height g i j .noneV
  | some s =>
    rw [Grid.setDecoded_some_eq g i j hi hj s]
    rw [Grid.setCore_height]

theorem Grid.decodeCell_cells (arr : Nat → Nat → Int × Int × Int) (g : Grid)
    (i j : Nat) (hi : i < g.width) (hj : j < g.height) (a b : Nat) :
    (Grid.decodeCell arr g i j).cells a b
      = if a = i ∧ b = j then decodeTarget arr i j else g.cells a b :=
  Grid.setDecoded_cells g i j hi hj _ a b

theorem Grid.decodeCell_width (arr : Nat → Nat → Int × Int × Int) (g : Grid)
    (i j : Nat) (hi : i < g.width) (hj : j < g.height) :
    (Grid.decodeCell arr g i j).width = g.width :=
  Grid.setDecoded_width g i j hi hj _

theorem Grid.decodeCell_height (arr : Nat → Nat → Int × Int × Int) (g : Grid)
    (i j : Nat) (hi : i < g.width) (hj : j < g.height) :
    (Grid.decodeCell arr g i j).height = g.height :=
  Grid.setDecoded_height g i j hi hj _

theorem Grid.decode_inner (arr : Nat → Nat → Int × Int × Int) (i : Nat) :
    ∀ (l : List Nat) (g : Grid), i < g.width → (∀ j2 ∈ l, j2 < g.height) →
      ((l.foldl (fun gB j2 => Grid.decodeCell arr gB i j2) g).width = g.width
      ∧ (l.foldl (fun gB j2 => Grid.decodeCell arr gB i j2) g).height = g.height
      ∧ ∀ a b, (l.foldl (fun gB j2 => Grid.decodeCell arr gB i j2) g).cells a b
          = if a = i ∧ b ∈ l then decodeTarget arr i b else g.cells a b) := by
  intro l
  induction l with
  | nil =>
    intro g hi hl
    refine ⟨rfl, rfl, fun a b => ?_⟩
    simp
  | cons j rest ih =>
    intro g hi hl
    have hj : j < g.height := hl j (by simp)
    have hw1 : (Grid.decodeCell arr g i j).width = g.width :=
      Grid.decodeCell_width arr g i j hi hj
    have hh1 : (Grid.decodeCell arr g i j).height = g.height :=
      Grid.decodeCell_height arr g i j hi hj
    have hrest : ∀ j2 ∈ rest, j2 < (Grid.decodeCell arr g i j).height := by
      intro j2 hj2
      rw [hh1]
      exact hl j2 (by simp [hj2])
    obtain ⟨hW, hH, hC⟩ := ih (Grid.decodeCell arr g i j) (by rw [hw1]; exact hi) hrest
    rw [List.foldl_cons]
    refine ⟨hW.trans hw1, hH.trans hh1, fun a b => ?_⟩
    rw [hC a b, Grid.decodeCell_cells arr g i j hi hj a b]
    by_cases hai : a = i
    · subst hai
      by_cases hbr : b ∈ rest
      · simp [hbr]
      · by_cases hbj : b = j
        · subst hbj
          simp [hbr]
        · simp [hbr, hbj]
    · simp [hai]

theorem Grid.decode_outer (arr : Nat → Nat → Int × Int × Int) (hgt : Nat) :
    ∀ (li : List Nat) (g : Grid), g.height = hgt → (∀ i2 ∈ li, i2 < g.width) →
      ((li.foldl
          (fun gA i => (List.range hgt).foldl (fun gB j => Grid.decodeCell arr gB i j) gA)
          g).width = g.width
      ∧ (li.foldl
          (fun gA i => (List.range hgt).foldl (fun gB j => Grid.decodeCell arr gB i j) gA)
          g).height = g.height
      ∧ ∀ a b, (li.foldl
          (fun gA i => (List.range hgt).foldl (fun gB j => Grid.decodeCell arr gB i j) gA)
          g).cells a b
          = if a ∈ li ∧ b < hgt then decodeTarget arr a b else g.cells a b) := by
  intro li
  induction li with
  | nil =>
    intro g hge hli
    refine ⟨rfl, rfl, fun a b => ?_⟩
    simp
  | cons i rest ih =>
    intro g hge hli
    have hi : i < g.width := hli i (by simp)
    obtain ⟨hw1, hh1, hc1⟩ := Grid.decode_inner arr i (List.range hgt) g hi
      (fun j2 hj2 => by rw [hge]; exact List.mem_range.mp hj2)
    set g1 := (List.range hgt).foldl (fun gB j => Grid.decodeCell arr gB i j) g with hg1
    have hrest : ∀ i2 ∈ rest, i2 < g1.width := by
      intro i2 hi2
      rw [hw1]
      exact hli i2 (by simp [hi2])
    obtain ⟨hW, hH, hC⟩ := ih g1 (hh1.trans hge) hrest
    rw [List.foldl_cons]
    refine ⟨hW.trans hw1, hH.trans hh1, fun a b => ?_⟩
    rw [hC a b, hc1 a b]
    by_cases hai : a = i
    · subst hai
      by_cases hbr : b < hgt
      · by_cases har : a ∈ rest
        · simp [hbr, har, List.mem_range]
        · simp [hbr, har, List.mem_range]
      · simp [hbr, List.mem_range]
    · by_cases har : a ∈ rest
      · simp [hai, har]
      · simp [hai, har]

/-- C1: for every grid built only from encodable object kinds (with the
constructor's minimum dimensions), decoding the all-visible encoding yields
a grid whose Cell Record state tensor is element-wise identical to the
original (`Grid.__eq__`). -/
theorem Grid.decode_encode_roundtrip (g : Grid) (hw : 3 ≤ g.width) (hh : 3 ≤ g.height)
    (henc : ∀ x y, x < g.width → y < g.height → encodableCell (g.cells x y)) :
    (Grid.decode g.width g.height (g.encode allVisible)).1.eqState g := by
  obtain ⟨hW, hH, hC⟩ := Grid.decode_outer (g.encode allVisible) g.height
    (List.range g.width) (Grid.new g.width g.height) rfl
    (fun i2 hi2 => List.mem_range.mp hi2)
  refine ⟨hW, hH, fun a b ha hb => ?_⟩
  have ha2 : a < g.width := lt_of_lt_of_eq ha hW
  have hb2 : b < g.height := lt_of_lt_of_eq hb hH
  have hc := hC a b
  rw [if_pos ⟨List.mem_range.mpr ha2, hb2⟩] at hc
  show ((List.range g.width).foldl
      (fun gA i => (List.range g.height).foldl
        (fun gB j => Grid.decodeCell (g.encode allVisible) gB i j) gA)
      (Grid.new g.width g.height)).cells a b = g.cells a b
  rw [hc]
  have ha := ha2
  have hb := hb2
  obtain ⟨he1, he2⟩ := henc a b ha hb
  unfold decodeTarget worldObjDecode Grid.encode Grid.stateEncode allVisible
  simp only [if_true]
  by_cases ht : (g.cells a b).typeIdx = emptyIdx
  · rw [if_pos (Or.inl ht)]
    rw [he1 ht]
    rfl
  · rw [if_neg (by simp [ht, he2])]
    rfl

theorem encodableCell_empty : encodableCell CellState.empty :=
  ⟨fun _ => rfl, by decide⟩

/-- C1 witness: the theorem at a fresh 3 by 3 grid (all cells empty, hence
encodable). -/
theorem Grid.decode_encode_roundtrip_witness :
    (Grid.decode (Grid.new 3 3).width (Grid.new 3 3).height
        ((Grid.new 3 3).encode allVisible)).1.eqState (Grid.new 3 3) := by
  exact Grid.decode_encode_roundtrip (Grid.new 3 3) (by decide) (by decide)
    (fun x y hx hy => encodableCell_empty)

theorem cacheLookup_mem (key : TileKey) (c : TileCache) (b : Buf)
    (hfound : cacheLookup key c = some b) : (key, b) ∈ c := by
  induction c with
  | nil => simp [cacheLookup] at hfound
  | cons kb rest ih =>
    obtain ⟨k, b0⟩ := kb
    by_cases hk : k = key
    · subst hk
      simp only [cacheLookup, if_pos rfl] at hfound
      have hb : b0 = b := Option.some_injective _ hfound
      subst hb
      exact List.mem_cons_self _ _
    · simp only [cacheLookup, if_neg hk] at hfound
      exact List.mem_cons_of_mem _ (ih hfound)

theorem renderTile_wf (draw : ObjDraw) (hlFn : HlOverlay) (c : TileCache)
    (enc : Option (Int × Int × Int)) (hl : Bool) (ts : Nat)
    (hwf : wfCache draw hlFn c) :
    (renderTile draw hlFn c enc hl ts).1 = renderTilePure draw hlFn enc hl ts
    ∧ wfCache draw hlFn (renderTile draw hlFn c enc hl ts).2 := by
  cases hlook : cacheLookup (enc, hl, ts) c with
  | some b =>
    have hcase : renderTile draw hlFn c enc hl ts = (b, c) := by
      simp only [renderTile]
      rw [hlook]
    rw [hcase]
    have hres : b = renderTilePure draw hlFn enc hl ts :=
      hwf enc hl ts b (cacheLookup_mem (enc, hl, ts) c b hlook)
    exact ⟨hres, hwf⟩
  | none =>
    have hcase : renderTile draw hlFn c enc hl ts
        = (renderTilePure draw hlFn enc hl ts,
            ((enc, hl, ts), renderTilePure draw hlFn enc hl ts) :: c) := by
      simp only [renderTile]
      rw [hlook]
    rw [hcase]
    refine ⟨rfl, ?_⟩
    intro enc2 hl2 ts2 b hmem
    rcases List.mem_cons.mp hmem with hhead | htail
    · simp only [Prod.mk.injEq] at hhead
      obtain ⟨⟨he, hh2, ht⟩, hb⟩ := hhead
      subst he
      subst hh2
      subst ht
      subst hb
      rfl
    · exact hwf enc2 hl2 ts2 b htail
